import Mathlib

/-!
Shallow embedding of `src/ChatGPT-Assistant/assistant.py` — the Conversation
Run Controller core: the thread store (`get_or_create_thread_id`), the run
poller (`poll_run_status_and_handle_response`), response extraction, and the
reply decision in `on_message`.

The remote API is modelled as an environment: `statusAt k` is the status the
k-th `runs.retrieve` call reports, and `threadMessages` is what
`messages.list` returns.  Side effects (API calls, sleeps) are recorded as an
ordered trace of `ApiCall`s.  The polling loop, which in Python may run
forever, is given fuel-based semantics: `PollOutcome.running` means the loop
had not produced a return value within the fuel bound.
-/

namespace Assistant

/-- Run statuses that appear in `assistant.py` (lines 118-126). -/
inductive RunStatus where
  | queued
  | in_progress
  | completed
  | failed
  | expired
  | cancelled
  | requires_action
  deriving DecidableEq, Repr

/-- The remote API operations and suspensions the code can perform, recorded in
order of occurrence. `createMessage` would be `threads.messages.create` (an
append of the user's message); `sendReply` is `message.reply` on Discord. -/
inductive ApiCall where
  | createThread
  | createMessage
  | createRun
  | retrieveRun
  | cancelRun
  | listMessages
  | sleepCall
  | sendReply
  deriving DecidableEq, Repr

/-- One element of a message's `content` array; `.value` is `text.value`. -/
structure Segment where
  value : String
  deriving DecidableEq, Repr

/-- A message returned by `messages.list` (role and ordered content segments). -/
structure ThreadMessage where
  role : String
  content : List Segment
  deriving DecidableEq, Repr

/-- Line 131-132: `next((m for m in messages.data if m.role == 'assistant'), None)`
followed by `latest_response.content[0].text.value if latest_response else None`.
If the found message has an empty `content` list, Python raises `IndexError`
(modelled as `Except.error`), which the enclosing `try` catches. -/
def extractLatest (data : List ThreadMessage) : Except String (Option String) :=
  match data.find? (fun m => m.role == "assistant") with
  | none => Except.ok none
  | some m =>
    match m.content with
    | [] => Except.error "IndexError"
    | seg :: _ => Except.ok (some seg.value)

/-- Line 118: `run_status.status in ['completed', 'failed', 'expired', 'cancelled']`. -/
def statusInBreakList (s : RunStatus) : Bool :=
  s == RunStatus.completed || s == RunStatus.failed ||
  s == RunStatus.expired || s == RunStatus.cancelled

/-- How the `while retries <= max_retries` loop (lines 115-124) is left.
`broke s` is the `break` on a terminal status; `actionReturn` is the
`requires_action` branch's `return None`; `condExit last` is the loop
condition turning false (carrying the last retrieved status, `none` if the
loop never ran); `fuelOut` means the loop was still running when fuel ran out. -/
inductive LoopExit where
  | broke (s : RunStatus)
  | actionReturn
  | condExit (last : Option RunStatus)
  | fuelOut
  deriving DecidableEq, Repr

/-- Lines 115-124.  `retries` is initialised to 0 at line 115 and — exactly as
in the source — never incremented, so it is threaded through unchanged.
`k` counts the `runs.retrieve` calls issued so far; the k-th call reports
`statusAt k`.  Returns the loop exit and the trace of calls made inside the
loop. -/
def pollLoop (statusAt : Nat → RunStatus) (maxRetries retries : Nat)
    (last : Option RunStatus) : Nat → Nat → LoopExit × List ApiCall
  | _, 0 => (LoopExit.fuelOut, [])
  | k, fuel + 1 =>
    if retries ≤ maxRetries then
      let s := statusAt k
      if statusInBreakList s then
        (LoopExit.broke s, [ApiCall.retrieveRun])
      else if s == RunStatus.requires_action then
        (LoopExit.actionReturn, [ApiCall.retrieveRun, ApiCall.cancelRun])
      else
        let r := pollLoop statusAt maxRetries retries (some s) (k + 1) fuel
        (r.fst, ApiCall.retrieveRun :: ApiCall.sleepCall :: r.snd)
    else
      (LoopExit.condExit last, [])

/-- Result of `poll_run_status_and_handle_response`: either the function
returned (carrying the final `run_status.status` it acted on, if any, and the
returned response), or the loop was still running when fuel ran out. -/
inductive PollOutcome where
  | returned (finalStatus : Option RunStatus) (response : Option String)
  | running
  deriving DecidableEq, Repr

/-- Lines 126-132: the code after the loop.  `if run_status.status != 'completed':
return None`, otherwise list the messages and extract. -/
def postLoop (messagesData : List ThreadMessage) (s : RunStatus) :
    Option String × List ApiCall :=
  if s != RunStatus.completed then
    (none, [])
  else
    match extractLatest messagesData with
    | Except.ok r => (r, [ApiCall.listMessages])
    | Except.error _ => (none, [ApiCall.listMessages])

/-- Lines 97-136, given the environment.  `runs.create` (line 110) is the first
call; then the loop; then the post-loop extraction.  A `condExit none` exit
would leave Python's `run_status` unbound (`NameError`, caught by the `except`
at line 134, returning `None`). -/
def poll_run_status_and_handle_response (statusAt : Nat → RunStatus)
    (messagesData : List ThreadMessage) (maxRetries fuel : Nat) :
    PollOutcome × List ApiCall :=
  match pollLoop statusAt maxRetries 0 none 0 fuel with
  | (LoopExit.fuelOut, tr) => (PollOutcome.running, ApiCall.createRun :: tr)
  | (LoopExit.actionReturn, tr) =>
    (PollOutcome.returned (some RunStatus.requires_action) none,
     ApiCall.createRun :: tr)
  | (LoopExit.broke s, tr) =>
    let p := postLoop messagesData s
    (PollOutcome.returned (some s) p.fst, ApiCall.createRun :: (tr ++ p.snd))
  | (LoopExit.condExit (some s), tr) =>
    let p := postLoop messagesData s
    (PollOutcome.returned (some s) p.fst, ApiCall.createRun :: (tr ++ p.snd))
  | (LoopExit.condExit none, tr) =>
    (PollOutcome.returned none none, ApiCall.createRun :: tr)

/-- The state `get_or_create_thread_id` acts on: the `thread_mapping` table as
an ordered list of `(discord_channel_id, openai_thread_id)` rows, plus a
counter from which the remote API mints fresh thread ids. -/
structure StoreState where
  table : List (String × String)
  nextThread : Nat
  deriving DecidableEq, Repr

/-- Line 83-84: `SELECT openai_thread_id FROM thread_mapping WHERE
discord_channel_id = ?` followed by `fetchone()` — the first matching row. -/
def selectThread (table : List (String × String)) (channel : String) :
    Option String :=
  (table.find? (fun r => r.fst == channel)).map (fun r => r.snd)

/-- The opaque thread id the remote `threads.create` mints for counter `n`. -/
def freshThreadId (n : Nat) : String :=
  "thread_" ++ toString n

/-- What one `get_or_create_thread_id` call produced: the returned thread id,
the state afterwards, and whether a remote thread was created / a row written. -/
structure GocResult where
  threadId : String
  state : StoreState
  createdRemote : Bool
  wroteRow : Bool
  deriving DecidableEq, Repr

/-- Lines 73-95: return the mapped thread id if a row exists; otherwise create
a remote thread, INSERT the mapping, and return the new id. -/
def get_or_create_thread_id (st : StoreState) (channel : String) : GocResult :=
  match selectThread st.table channel with
  | some t =>
    { threadId := t, state := st, createdRemote := false, wroteRow := false }
  | none =>
    let t := freshThreadId st.nextThread
    { threadId := t,
      state := { table := st.table ++ [(channel, t)],
                 nextThread := st.nextThread + 1 },
      createdRemote := true,
      wroteRow := true }

/-- Fold a sequence of sequential `get_or_create_thread_id` calls through the
store state. -/
def runCalls : StoreState → List String → StoreState
  | st, [] => st
  | st, c :: cs => runCalls (get_or_create_thread_id st c).state cs

/-- The `thread_mapping` invariant: each `discord_channel_id` occurs in at most
one row. -/
def uniqueChannels (table : List (String × String)) : Prop :=
  (table.map Prod.fst).Nodup

instance (table : List (String × String)) : Decidable (uniqueChannels table) :=
  inferInstanceAs (Decidable ((table.map Prod.fst).Nodup))

/-- The remote API's behaviour during one `on_message` processing: the statuses
successive `runs.retrieve` calls report, and what `messages.list` returns. -/
structure Env where
  statusAt : Nat → RunStatus
  threadMessages : List ThreadMessage

/-- Python truthiness of the poller's return value: line 227 `if response:` is
true exactly for a non-`None`, non-empty string. -/
def pyTruthy : Option String → Bool
  | none => false
  | some s => s != ""

/-- How one processed inbound message ends: a reply was sent, silence (no reply,
line 230), or the poll loop was still running when fuel ran out. -/
inductive HandleOutcome where
  | replied (text : String)
  | silent
  | stuck
  deriving DecidableEq, Repr

/-- What processing one inbound message produced. -/
structure HandleResult where
  outcome : HandleOutcome
  state : StoreState
  calls : List ApiCall
  deriving Repr

/-- Lines 219-230 of `on_message`, for a message that passed the gate with
`should_respond` true: look up or create the thread mapping, run the poller,
and reply exactly when the poller's return value is truthy.  Note the source
issues no `threads.messages.create` call anywhere: the inbound text is never
appended to the thread, so the text is not even an input of this flow. -/
def on_message_respond (st : StoreState) (channel : String) (env : Env)
    (maxRetries fuel : Nat) : HandleResult :=
  let g := get_or_create_thread_id st channel
  let gCalls := if g.createdRemote then [ApiCall.createThread] else []
  match poll_run_status_and_handle_response env.statusAt env.threadMessages
      maxRetries fuel with
  | (PollOutcome.running, tr) =>
    { outcome := HandleOutcome.stuck, state := g.state, calls := gCalls ++ tr }
  | (PollOutcome.returned _ r, tr) =>
    if pyTruthy r then
      { outcome := HandleOutcome.replied (r.getD ""),
        state := g.state,
        calls := gCalls ++ tr ++ [ApiCall.sendReply] }
    else
      { outcome := HandleOutcome.silent, state := g.state, calls := gCalls ++ tr }

end Assistant

namespace Assistant

/-! ### Concrete fixtures used by counterexamples and witnesses -/

/-- The status sequence of spec §8: `queued, in_progress, in_progress, completed`
as successive `runs.retrieve` responses. -/
def specStatusSeq : Nat → RunStatus
  | 0 => RunStatus.queued
  | 1 => RunStatus.in_progress
  | 2 => RunStatus.in_progress
  | _ => RunStatus.completed

/-- A message list holding one assistant message whose single segment is "ok". -/
def okMessages : List ThreadMessage :=
  [{ role := "assistant", content := [{ value := "ok" }] }]

/-- One assistant message with the two text segments "Hello" and "world". -/
def helloWorldMessages : List ThreadMessage :=
  [{ role := "assistant", content := [{ value := "Hello" }, { value := "world" }] }]

/-! ### Helper lemmas about the polling loop -/

/-- No branch of the polling loop ever issues `threads.messages.create`. -/
theorem pollLoop_no_createMessage (sA : Nat → RunStatus) (m r : Nat) :
    ∀ (fuel k : Nat) (last : Option RunStatus),
      ApiCall.createMessage ∉ (pollLoop sA m r last k fuel).snd := by
  intro fuel
  induction fuel with
  | zero =>
    intro k last
    simp [pollLoop]
  | succ f ih =>
    intro k last
    simp only [pollLoop]
    split
    · split
      · simp
      · split
        · simp
        · simpa using ih (k + 1) (some (sA k))
    · simp

/-- The post-loop extraction issues at most `messages.list`, never an append. -/
theorem postLoop_no_createMessage (msgs : List ThreadMessage) (s : RunStatus) :
    ApiCall.createMessage ∉ (postLoop msgs s).snd := by
  unfold postLoop
  split
  · simp
  · split <;> simp

/-- The whole poller never issues `threads.messages.create`. -/
theorem poll_no_createMessage (sA : Nat → RunStatus) (msgs : List ThreadMessage)
    (m fuel : Nat) :
    ApiCall.createMessage ∉
      (poll_run_status_and_handle_response sA msgs m fuel).snd := by
  unfold poll_run_status_and_handle_response
  have hloop := pollLoop_no_createMessage sA m 0 fuel 0 none
  rcases hL : pollLoop sA m 0 none 0 fuel with ⟨e, tr⟩
  rw [hL] at hloop
  simp only at hloop
  cases e with
  | fuelOut => simpa using hloop
  | actionReturn => simpa using hloop
  | broke s =>
    have hpost := postLoop_no_createMessage msgs s
    simp only [List.mem_cons, List.mem_append]
    rintro (h | h | h)
    · exact absurd h (by simp)
    · exact hloop h
    · exact hpost h
  | condExit last =>
    cases last with
    | none => simpa using hloop
    | some s =>
      have hpost := postLoop_no_createMessage msgs s
      simp only [List.mem_cons, List.mem_append]
      rintro (h | h | h)
      · exact absurd h (by simp)
      · exact hloop h
      · exact hpost h

end Assistant

namespace Assistant

/-- One unfolding of the loop while fuel remains: the source initialises
`retries = 0` and never changes it, so the `while retries <= max_retries`
check is always true and the body runs. -/
theorem pollLoop_step (sA : Nat → RunStatus) (m k f : Nat)
    (last : Option RunStatus) :
    pollLoop sA m 0 last k (f + 1) =
      if statusInBreakList (sA k) then
        (LoopExit.broke (sA k), [ApiCall.retrieveRun])
      else if sA k == RunStatus.requires_action then
        (LoopExit.actionReturn, [ApiCall.retrieveRun, ApiCall.cancelRun])
      else
        ((pollLoop sA m 0 (some (sA k)) (k + 1) f).fst,
         ApiCall.retrieveRun :: ApiCall.sleepCall ::
           (pollLoop sA m 0 (some (sA k)) (k + 1) f).snd) := by
  simp [pollLoop, Nat.zero_le m]

/-- When every retrieve reports the non-terminal `in_progress`, the loop body
always reaches the sleep branch: the loop never exits and never cancels, for
any fuel. -/
theorem pollLoop_const_in_progress (sA : Nat → RunStatus)
    (h : ∀ k, sA k = RunStatus.in_progress) (m : Nat) :
    ∀ (fuel k : Nat) (last : Option RunStatus),
      (pollLoop sA m 0 last k fuel).fst = LoopExit.fuelOut ∧
        ApiCall.cancelRun ∉ (pollLoop sA m 0 last k fuel).snd := by
  intro fuel
  induction fuel with
  | zero =>
    intro k last
    simp [pollLoop]
  | succ f ih =>
    intro k last
    rw [pollLoop_step, h k]
    rw [show statusInBreakList RunStatus.in_progress = false from rfl]
    rw [show (RunStatus.in_progress == RunStatus.requires_action) = false from rfl]
    simp only [Bool.false_eq_true, if_false]
    refine ⟨(ih (k + 1) (some RunStatus.in_progress)).1, ?_⟩
    intro hmem
    rcases List.mem_cons.mp hmem with h1 | hmem
    · simp at h1
    rcases List.mem_cons.mp hmem with h1 | hmem
    · simp at h1
    · exact (ih (k + 1) (some RunStatus.in_progress)).2 hmem

/-- C1: REFUTED — code bug.  The claim says a run that never reaches a terminal
state is cancelled once and reported as a timeout failure, with the timeout
enforced on wall-clock time.  In the source, `retries` is never incremented
(lines 115-124), so the loop has no effective bound and there is no timeout or
cancel path at all: for every fuel bound the poller is still running, and the
trace contains no cancel request. -/
theorem c1_unbounded_poll_no_cancel (sA : Nat → RunStatus)
    (h : ∀ k, sA k = RunStatus.in_progress) (msgs : List ThreadMessage)
    (m fuel : Nat) :
    (poll_run_status_and_handle_response sA msgs m fuel).fst =
        PollOutcome.running ∧
      ApiCall.cancelRun ∉
        (poll_run_status_and_handle_response sA msgs m fuel).snd := by
  have hc := pollLoop_const_in_progress sA h m fuel 0 none
  unfold poll_run_status_and_handle_response
  rcases hL : pollLoop sA m 0 none 0 fuel with ⟨e, tr⟩
  rw [hL] at hc
  obtain ⟨he, hm⟩ := hc
  cases e with
  | fuelOut =>
    refine ⟨rfl, ?_⟩
    intro hmem
    rcases List.mem_cons.mp hmem with h1 | hmem
    · simp at h1
    · exact hm hmem
  | broke s => simp at he
  | actionReturn => simp at he
  | condExit last => simp at he

/-- Witness for C1 at a concrete always-`in_progress` run. -/
theorem c1_unbounded_poll_no_cancel_witness :
    (∀ k, (fun _ : Nat => RunStatus.in_progress) k = RunStatus.in_progress) ∧
      ((poll_run_status_and_handle_response (fun _ => RunStatus.in_progress)
            [] 1 5).fst = PollOutcome.running ∧
        ApiCall.cancelRun ∉
          (poll_run_status_and_handle_response (fun _ => RunStatus.in_progress)
              [] 1 5).snd) :=
  ⟨fun _ => rfl,
   c1_unbounded_poll_no_cancel (fun _ => RunStatus.in_progress) (fun _ => rfl) [] 1 5⟩

/-- C2: REFUTED — code bug.  The claim says the user's message text is appended
to the conversation before the run is launched (with append failures
swallowed).  The source contains no `threads.messages.create` call at all:
for every processed inbound message, the whole append-run-poll-extract flow
issues no message append, so the inbound text never reaches the thread. -/
theorem c2_message_never_appended (st : StoreState) (channel : String)
    (env : Env) (m fuel : Nat) :
    ApiCall.createMessage ∉ (on_message_respond st channel env m fuel).calls := by
  unfold on_message_respond
  have hp := poll_no_createMessage env.statusAt env.threadMessages m fuel
  rcases hP : poll_run_status_and_handle_response env.statusAt
      env.threadMessages m fuel with ⟨o, tr⟩
  rw [hP] at hp
  cases o with
  | running =>
    dsimp only
    intro hmem
    rcases List.mem_append.mp hmem with h1 | h1
    · split at h1 <;> simp at h1
    · exact hp h1
  | returned fs r =>
    dsimp only
    by_cases hr : pyTruthy r = true
    · rw [if_pos hr]
      intro hmem
      rcases List.mem_append.mp hmem with h1 | h1
      · rcases List.mem_append.mp h1 with h2 | h2
        · split at h2 <;> simp at h2
        · exact hp h2
      · simp at h1
    · rw [if_neg hr]
      intro hmem
      rcases List.mem_append.mp hmem with h1 | h1
      · split at h1 <;> simp at h1
      · exact hp h1

end Assistant

namespace Assistant

/-- C3 counterexample: for one assistant message with the two text segments
"Hello" and "world", the code's extraction does NOT return "Hello\nworld" —
line 132 takes `content[0]` only, performing no concatenation and no
trimming. -/
theorem c3_counterexample_first_segment :
    extractLatest helloWorldMessages ≠
      Except.ok (some ("Hello" ++ "\n" ++ "world")) := by
  intro h
  rw [show extractLatest helloWorldMessages = Except.ok (some "Hello") from rfl]
    at h
  injection h with h1
  injection h1 with h2
  exact absurd h2 (by decide)

/-- C3 amended: extraction returns the text of the FIRST segment of the most
recent assistant-authored message only; later segments are dropped and nothing
is trimmed.  In particular, for segments "Hello" and "world" it returns
"Hello". -/
theorem c3_extract_first_segment (msgs : List ThreadMessage)
    (msg : ThreadMessage) (seg : Segment) (rest : List Segment)
    (hfind : msgs.find? (fun x => x.role == "assistant") = some msg)
    (hcontent : msg.content = seg :: rest) :
    extractLatest msgs = Except.ok (some seg.value) := by
  unfold extractLatest
  rw [hfind]
  dsimp only
  rw [hcontent]

/-- Witness for C3's amended statement at the "Hello"/"world" input. -/
theorem c3_extract_first_segment_witness :
    (helloWorldMessages.find? (fun x => x.role == "assistant") =
        some { role := "assistant",
               content := [{ value := "Hello" }, { value := "world" }] }) ∧
      extractLatest helloWorldMessages = Except.ok (some "Hello") :=
  ⟨rfl, c3_extract_first_segment _ _ _ _ rfl rfl⟩

/-- C4: CONFIRMED.  A run reporting `requires_action` on the first poll is
cancelled exactly once and the poller returns `None` at once: the whole trace
is create-run, one retrieve, one cancel — no sleep, no further poll, no
message listing. -/
theorem c4_requires_action_cancelled_once (sA : Nat → RunStatus)
    (msgs : List ThreadMessage) (m fuel : Nat)
    (h0 : sA 0 = RunStatus.requires_action) (hf : 1 ≤ fuel) :
    poll_run_status_and_handle_response sA msgs m fuel =
      (PollOutcome.returned (some RunStatus.requires_action) none,
       [ApiCall.createRun, ApiCall.retrieveRun, ApiCall.cancelRun]) := by
  obtain ⟨f, rfl⟩ : ∃ f, fuel = f + 1 := ⟨fuel - 1, by omega⟩
  unfold poll_run_status_and_handle_response
  rw [pollLoop_step, h0]
  rw [show statusInBreakList RunStatus.requires_action = false from rfl]
  rw [show (RunStatus.requires_action == RunStatus.requires_action) = true from rfl]
  simp

/-- Witness for C4 at a concrete `requires_action` run. -/
theorem c4_requires_action_cancelled_once_witness :
    ((fun _ : Nat => RunStatus.requires_action) 0 = RunStatus.requires_action) ∧
      1 ≤ 5 ∧
      poll_run_status_and_handle_response (fun _ => RunStatus.requires_action)
          okMessages 1 5 =
        (PollOutcome.returned (some RunStatus.requires_action) none,
         [ApiCall.createRun, ApiCall.retrieveRun, ApiCall.cancelRun]) :=
  ⟨rfl, by omega,
   c4_requires_action_cancelled_once (fun _ => RunStatus.requires_action)
     okMessages 1 5 rfl (by omega)⟩

end Assistant

namespace Assistant

/-- After inserting a row for a channel that had none, the SELECT finds exactly
the inserted thread id. -/
theorem selectThread_append_self (tbl : List (String × String)) (c t : String)
    (h : selectThread tbl c = none) :
    selectThread (tbl ++ [(c, t)]) c = some t := by
  unfold selectThread at h ⊢
  have hfind : tbl.find? (fun r => r.fst == c) = none := by
    rcases hf : tbl.find? (fun r => r.fst == c) with _ | r
    · exact hf
    · rw [hf] at h
      simp at h
  rw [List.find?_append, hfind]
  simp [List.find?]

/-- C5: CONFIRMED.  `get_or_create_thread_id` is idempotent: an existing
mapping is returned unchanged with no remote thread creation and no row
written, and for a never-seen channel two sequential calls return the same
thread id and a stable state. -/
theorem c5_get_or_create_idempotent (st : StoreState) (c : String) :
    (∀ t, selectThread st.table c = some t →
        get_or_create_thread_id st c =
          { threadId := t, state := st, createdRemote := false,
            wroteRow := false }) ∧
      (selectThread st.table c = none →
        ((get_or_create_thread_id
              (get_or_create_thread_id st c).state c).threadId =
            (get_or_create_thread_id st c).threadId ∧
          (get_or_create_thread_id
              (get_or_create_thread_id st c).state c).state =
            (get_or_create_thread_id st c).state)) := by
  constructor
  · intro t ht
    unfold get_or_create_thread_id
    rw [ht]
  · intro hn
    have h1 : get_or_create_thread_id st c =
        { threadId := freshThreadId st.nextThread,
          state := { table := st.table ++ [(c, freshThreadId st.nextThread)],
                     nextThread := st.nextThread + 1 },
          createdRemote := true, wroteRow := true } := by
      unfold get_or_create_thread_id
      rw [hn]
    have h2 : selectThread (st.table ++ [(c, freshThreadId st.nextThread)]) c =
        some (freshThreadId st.nextThread) :=
      selectThread_append_self st.table c (freshThreadId st.nextThread) hn
    rw [h1]
    unfold get_or_create_thread_id
    dsimp only
    rw [h2]
    exact ⟨rfl, rfl⟩

/-- Witness for C5: an existing mapping is a no-op, and a fresh channel gets
the same handle from two sequential calls. -/
theorem c5_get_or_create_idempotent_witness :
    (selectThread [("a", "T")] "a" = some "T" ∧
      get_or_create_thread_id { table := [("a", "T")], nextThread := 0 } "a" =
        { threadId := "T",
          state := { table := [("a", "T")], nextThread := 0 },
          createdRemote := false, wroteRow := false }) ∧
      (selectThread ([] : List (String × String)) "b" = none ∧
        ((get_or_create_thread_id
              (get_or_create_thread_id
                { table := [], nextThread := 0 } "b").state "b").threadId =
            (get_or_create_thread_id
              { table := [], nextThread := 0 } "b").threadId ∧
          (get_or_create_thread_id
              (get_or_create_thread_id
                { table := [], nextThread := 0 } "b").state "b").state =
            (get_or_create_thread_id
              { table := [], nextThread := 0 } "b").state)) :=
  ⟨⟨rfl, (c5_get_or_create_idempotent
      { table := [("a", "T")], nextThread := 0 } "a").1 "T" rfl⟩,
   ⟨rfl, (c5_get_or_create_idempotent
      { table := [], nextThread := 0 } "b").2 rfl⟩⟩

/-- One `get_or_create_thread_id` call preserves channel-id uniqueness of the
mapping table: a row is inserted only when the SELECT found no row for that
channel. -/
theorem goc_preserves_unique (st : StoreState) (c : String)
    (h : uniqueChannels st.table) :
    uniqueChannels (get_or_create_thread_id st c).state.table := by
  unfold get_or_create_thread_id
  rcases hs : selectThread st.table c with _ | t
  · dsimp only
    unfold uniqueChannels at h ⊢
    rw [List.map_append, List.nodup_append]
    refine ⟨h, by simp, ?_⟩
    intro a ha hb
    have hac : a = c := by simpa using hb
    rcases List.mem_map.mp ha with ⟨r, hr, hfst⟩
    have hfind : st.table.find? (fun x => x.fst == c) = none := by
      unfold selectThread at hs
      rcases hf : st.table.find? (fun x => x.fst == c) with _ | r'
      · exact hf
      · rw [hf] at hs
        simp at hs
    have hnot := List.find?_eq_none.mp hfind r hr
    exact hnot (by rw [hfst, hac]; simp)
  · dsimp only
    exact h

/-- C9: CONFIRMED.  Starting from a table in which each channel_id occurs at
most once, any sequence of sequential `get_or_create_thread_id` calls leaves
the table with each channel_id still occurring at most once. -/
theorem c9_unique_channel_invariant (st : StoreState) (cs : List String)
    (h : uniqueChannels st.table) :
    uniqueChannels (runCalls st cs).table := by
  induction cs generalizing st with
  | nil => simpa [runCalls] using h
  | cons c cs ih =>
    rw [runCalls]
    exact ih _ (goc_preserves_unique st c h)

/-- Witness for C9: from the empty table, a repeated channel and a fresh one
leave the table unique. -/
theorem c9_unique_channel_invariant_witness :
    uniqueChannels ({ table := [], nextThread := 0 } : StoreState).table ∧
      uniqueChannels
        (runCalls { table := [], nextThread := 0 } ["a", "a", "b"]).table :=
  ⟨by decide,
   c9_unique_channel_invariant { table := [], nextThread := 0 } ["a", "a", "b"]
     (by decide)⟩

end Assistant

namespace Assistant

/-- What the post-loop code can return: `None` unless the final status is
`completed`, in which case the extraction result. -/
theorem postLoop_fst (msgs : List ThreadMessage) (s : RunStatus) :
    (postLoop msgs s).fst = none ∨
      (s = RunStatus.completed ∧
        extractLatest msgs = Except.ok ((postLoop msgs s).fst)) := by
  unfold postLoop
  by_cases hc : s = RunStatus.completed
  · subst hc
    rw [if_neg (by simp)]
    rcases hE : extractLatest msgs with e | r
    · left
      rfl
    · right
      exact ⟨rfl, rfl⟩
  · rw [if_pos (by simp [hc])]
    left
    rfl

/-- Whenever the poller returns, its response is `None` unless the final
status was `completed` and the response is exactly the extraction result. -/
theorem poll_returned_response (sA : Nat → RunStatus)
    (msgs : List ThreadMessage) (m fuel : Nat) (fs : Option RunStatus)
    (r : Option String)
    (h : (poll_run_status_and_handle_response sA msgs m fuel).fst =
        PollOutcome.returned fs r) :
    r = none ∨
      (fs = some RunStatus.completed ∧ extractLatest msgs = Except.ok r) := by
  unfold poll_run_status_and_handle_response at h
  rcases hL : pollLoop sA m 0 none 0 fuel with ⟨e, tr⟩
  rw [hL] at h
  cases e with
  | fuelOut => exact absurd h (by simp)
  | actionReturn =>
    dsimp only at h
    injection h with h1 h2
    exact Or.inl h2.symm
  | broke s =>
    dsimp only at h
    injection h with h1 h2
    rcases postLoop_fst msgs s with hp | ⟨hs, hE⟩
    · exact Or.inl (h2.symm.trans hp)
    · right
      refine ⟨?_, ?_⟩
      · rw [← h1, hs]
      · rw [← h2]
        exact hE
  | condExit last =>
    cases last with
    | none =>
      dsimp only at h
      injection h with h1 h2
      exact Or.inl h2.symm
    | some s =>
      dsimp only at h
      injection h with h1 h2
      rcases postLoop_fst msgs s with hp | ⟨hs, hE⟩
      · exact Or.inl (h2.symm.trans hp)
      · right
        refine ⟨?_, ?_⟩
        · rw [← h1, hs]
        · rw [← h2]
          exact hE

/-- If the poller returned a value that is falsy in Python (`None` or the empty
string), line 227's `if response:` takes the else branch: no reply is sent. -/
theorem on_message_silent_of_falsy (st : StoreState) (channel : String)
    (env : Env) (m fuel : Nat) (fs : Option RunStatus) (r : Option String)
    (hp : (poll_run_status_and_handle_response env.statusAt env.threadMessages
        m fuel).fst = PollOutcome.returned fs r)
    (hr : pyTruthy r = false) :
    (on_message_respond st channel env m fuel).outcome =
      HandleOutcome.silent := by
  unfold on_message_respond
  rcases hP : poll_run_status_and_handle_response env.statusAt
      env.threadMessages m fuel with ⟨o, tr⟩
  rw [hP] at hp
  dsimp only at hp
  subst hp
  dsimp only
  rw [if_neg (by rw [hr]; simp)]

end Assistant

namespace Assistant

/-- A run whose every retrieve reports the failure terminal `failed`, over a
thread whose message list is well-formed. -/
def failedEnv : Env :=
  { statusAt := fun _ => RunStatus.failed, threadMessages := okMessages }

/-- A completed run over a thread whose message list holds no
assistant-authored message. -/
def noAssistantEnv : Env :=
  { statusAt := fun _ => RunStatus.completed,
    threadMessages := [{ role := "user", content := [{ value := "hi" }] }] }

/-- A completed run whose extracted assistant text is the empty string. -/
def emptyTextEnv : Env :=
  { statusAt := fun _ => RunStatus.completed,
    threadMessages := [{ role := "assistant", content := [{ value := "" }] }] }

/-- C6: CONFIRMED.  A run ending in a failure terminal (`failed`, `expired` or
`cancelled`) makes the poller return `None` — a normal value, with no
exception anywhere in the embedding — and the controller stays silent: no
reply is sent to the user. -/
theorem c6_failure_terminal_silent (st : StoreState) (channel : String)
    (env : Env) (m fuel : Nat) (s : RunStatus) (r : Option String)
    (hp : (poll_run_status_and_handle_response env.statusAt env.threadMessages
        m fuel).fst = PollOutcome.returned (some s) r)
    (hs : s = RunStatus.failed ∨ s = RunStatus.expired ∨
      s = RunStatus.cancelled) :
    r = none ∧
      (on_message_respond st channel env m fuel).outcome =
        HandleOutcome.silent := by
  have hr : r = none := by
    rcases poll_returned_response env.statusAt env.threadMessages m fuel
        (some s) r hp with h | ⟨hfs, _⟩
    · exact h
    · injection hfs with h'
      rcases hs with h | h | h <;> rw [h] at h' <;> simp at h'
  refine ⟨hr, ?_⟩
  subst hr
  exact on_message_silent_of_falsy st channel env m fuel (some s) none hp rfl

/-- Witness for C6 at a concrete `failed` run. -/
theorem c6_failure_terminal_silent_witness :
    ((poll_run_status_and_handle_response failedEnv.statusAt
        failedEnv.threadMessages 1 2).fst =
      PollOutcome.returned (some RunStatus.failed) (none : Option String)) ∧
      ((none : Option String) = none ∧
        (on_message_respond { table := [], nextThread := 0 } "chan" failedEnv
            1 2).outcome = HandleOutcome.silent) :=
  ⟨by decide,
   c6_failure_terminal_silent { table := [], nextThread := 0 } "chan"
     failedEnv 1 2 RunStatus.failed none (by decide) (Or.inl rfl)⟩

/-- C7: CONFIRMED.  When the thread's message list holds no assistant-authored
message, extraction yields `None` (a value, not an error), and the controller
consequently stays silent, again without any exception. -/
theorem c7_no_assistant_message_silent (st : StoreState) (channel : String)
    (env : Env) (m fuel : Nat)
    (hno : ∀ msg ∈ env.threadMessages, msg.role ≠ "assistant")
    (hret : (poll_run_status_and_handle_response env.statusAt
        env.threadMessages m fuel).fst ≠ PollOutcome.running) :
    extractLatest env.threadMessages = Except.ok none ∧
      (on_message_respond st channel env m fuel).outcome =
        HandleOutcome.silent := by
  have hfind : env.threadMessages.find? (fun x => x.role == "assistant") =
      none := by
    rw [List.find?_eq_none]
    intro x hx hbeq
    exact hno x hx (by simpa using hbeq)
  have hext : extractLatest env.threadMessages = Except.ok none := by
    unfold extractLatest
    rw [hfind]
  refine ⟨hext, ?_⟩
  cases ho : (poll_run_status_and_handle_response env.statusAt
      env.threadMessages m fuel).fst with
  | running => exact absurd ho hret
  | returned fs r =>
    have hr : r = none := by
      rcases poll_returned_response env.statusAt env.threadMessages m fuel fs r
          ho with h | ⟨_, hE⟩
      · exact h
      · rw [hext] at hE
        injection hE with h'
        exact h'.symm
    subst hr
    exact on_message_silent_of_falsy st channel env m fuel fs none ho rfl

/-- Witness for C7 at a concrete assistant-free message list. -/
theorem c7_no_assistant_message_silent_witness :
    (∀ msg ∈ noAssistantEnv.threadMessages, msg.role ≠ "assistant") ∧
      ((poll_run_status_and_handle_response noAssistantEnv.statusAt
          noAssistantEnv.threadMessages 1 2).fst ≠ PollOutcome.running) ∧
      (extractLatest noAssistantEnv.threadMessages = Except.ok none ∧
        (on_message_respond { table := [], nextThread := 0 } "chan"
            noAssistantEnv 1 2).outcome = HandleOutcome.silent) :=
  ⟨by decide, by decide,
   c7_no_assistant_message_silent { table := [], nextThread := 0 } "chan"
     noAssistantEnv 1 2 (by decide) (by decide)⟩

/-- C10: CONFIRMED.  If the run completed but the extracted text is the empty
string, line 227's truthiness test treats it exactly like `None`: the
controller stays silent and sends no reply. -/
theorem c10_empty_text_silent (st : StoreState) (channel : String) (env : Env)
    (m fuel : Nat)
    (h : (poll_run_status_and_handle_response env.statusAt env.threadMessages
        m fuel).fst =
      PollOutcome.returned (some RunStatus.completed) (some "")) :
    (on_message_respond st channel env m fuel).outcome =
        HandleOutcome.silent ∧
      pyTruthy (some "") = pyTruthy none :=
  ⟨on_message_silent_of_falsy st channel env m fuel
      (some RunStatus.completed) (some "") h (by decide), by decide⟩

/-- Witness for C10 at a concrete completed run with empty assistant text. -/
theorem c10_empty_text_silent_witness :
    ((poll_run_status_and_handle_response emptyTextEnv.statusAt
        emptyTextEnv.threadMessages 1 2).fst =
      PollOutcome.returned (some RunStatus.completed) (some "")) ∧
      ((on_message_respond { table := [], nextThread := 0 } "chan" emptyTextEnv
            1 2).outcome = HandleOutcome.silent ∧
        pyTruthy (some "") = pyTruthy none) :=
  ⟨by decide,
   c10_empty_text_silent { table := [], nextThread := 0 } "chan" emptyTextEnv
     1 2 (by decide)⟩

end Assistant

namespace Assistant

/-- C8 counterexample: with the polled status sequence `queued, in_progress,
in_progress, completed` the poller issues 4 `runs.retrieve` calls, not 3 —
each status in the sequence, the final `completed` included, is observed by
its own retrieve call. -/
theorem c8_counterexample_three_polls :
    (poll_run_status_and_handle_response specStatusSeq okMessages 1 10).snd.count
        ApiCall.retrieveRun ≠ 3 := by
  decide

/-- C8 amended: for the status sequence `queued, in_progress, in_progress,
completed` the poller reaches `completed` and returns the extracted response
after exactly 4 status polls (and 3 sleeps), never issuing a cancel — for any
remaining fuel, i.e. however long the loop could still have run. -/
theorem c8_completed_after_four_polls (f : Nat) :
    poll_run_status_and_handle_response specStatusSeq okMessages 1 (f + 4) =
      (PollOutcome.returned (some RunStatus.completed) (some "ok"),
       [ApiCall.createRun, ApiCall.retrieveRun, ApiCall.sleepCall,
        ApiCall.retrieveRun, ApiCall.sleepCall, ApiCall.retrieveRun,
        ApiCall.sleepCall, ApiCall.retrieveRun, ApiCall.listMessages]) := by
  unfold poll_run_status_and_handle_response
  rw [show f + 4 = (f + 3) + 1 from rfl, pollLoop_step]
  rw [show specStatusSeq 0 = RunStatus.queued from rfl]
  rw [show statusInBreakList RunStatus.queued = false from rfl]
  rw [show (RunStatus.queued == RunStatus.requires_action) = false from rfl]
  simp only [Bool.false_eq_true, if_false]
  rw [show f + 3 = (f + 2) + 1 from rfl, pollLoop_step]
  rw [show specStatusSeq 1 = RunStatus.in_progress from rfl]
  rw [show statusInBreakList RunStatus.in_progress = false from rfl]
  rw [show (RunStatus.in_progress == RunStatus.requires_action) = false from rfl]
  simp only [Bool.false_eq_true, if_false]
  rw [show f + 2 = (f + 1) + 1 from rfl, pollLoop_step]
  rw [show specStatusSeq 2 = RunStatus.in_progress from rfl]
  rw [show statusInBreakList RunStatus.in_progress = false from rfl]
  rw [show (RunStatus.in_progress == RunStatus.requires_action) = false from rfl]
  simp only [Bool.false_eq_true, if_false]
  rw [show f + 1 = f + 1 from rfl, pollLoop_step]
  rw [show specStatusSeq 3 = RunStatus.completed from rfl]
  rw [show statusInBreakList RunStatus.completed = true from rfl]
  simp only [if_true]
  rfl

end Assistant
